import Mathlib

/-!
Shallow embedding of `src/main.rs` of the Wifi_Password_visualizer repository.

The program opens a WLAN session handle, enumerates the wireless interfaces,
and for each interface walks its saved profile list; each profile's XML
configuration document is fetched, parsed, queried for the authentication
type at path MSM/security/authEncryption/authentication and, for WPA2-style
profiles, for the key at MSM/security/sharedKey/keyMaterial.

The embedding models:
 * the parsed XML document as an inductive labeled tree (`XmlNode`), with
   `nodeName`, `ChildNodes` and `InnerText` mirroring the DOM operations the
   source uses (text nodes have node name "#text", inner text is the
   concatenated text of the whole subtree);
 * `traverse_xml_tree` and `parse_utf16_slice` as pure functions translated
   line by line from the source;
 * the `main` pipeline as a pure function `mainRun` over an environment
   record (`Env`) describing the answers of the OS collaborators, producing
   the process exit status plus the ordered list of observable events
   (output lines, diagnostics, and resource-release calls).
-/

namespace WifiViz

/-- A node of the parsed XML document: an element with a name and ordered
children, or a text node. This mirrors the DOM tree the source navigates. -/
inductive XmlNode where
  | elem (name : String) (children : List XmlNode)
  | text (s : String)
deriving Repr

/-- DOM `NodeName`: the tag name of an element, `"#text"` for a text node. -/
def XmlNode.nodeName : XmlNode → String
  | XmlNode.elem n _ => n
  | XmlNode.text _ => "#text"

/-- DOM `ChildNodes`: the ordered children of an element; a text node has
none. -/
def XmlNode.children : XmlNode → List XmlNode
  | XmlNode.elem _ cs => cs
  | XmlNode.text _ => []

/-- Whether `cast::<XmlElement>()` succeeds on this node. -/
def XmlNode.isElem : XmlNode → Bool
  | XmlNode.elem _ _ => true
  | XmlNode.text _ => false

mutual
/-- DOM `InnerText`: the concatenated text content of the entire subtree,
in document order. -/
def XmlNode.innerText : XmlNode → String
  | XmlNode.text s => s
  | XmlNode.elem _ cs => innerTextAll cs

/-- Concatenated inner text of a list of sibling nodes. -/
def innerTextAll : List XmlNode → String
  | [] => ""
  | c :: cs => XmlNode.innerText c ++ innerTextAll cs
end

/-- The inner scan of `traverse_xml_tree` (src/main.rs lines 84-101) when the
current path segment is the last one (`i == node_path.len() - 1`): the first
child whose node name equals the segment makes the function return that
child's inner text, whatever kind of node it is. -/
def lastScan (name : String) : List XmlNode → Option String
  | [] => none
  | c :: cs => if c.nodeName = name then some c.innerText else lastScan name cs

/-- The inner scan of `traverse_xml_tree` when the current path segment is
not the last one: the first child whose node name matches and whose
`cast::<XmlElement>()` succeeds becomes the new current node; a matching
non-element child does not stop the scan (the `break` sits inside the
successful cast). -/
def descendScan (name : String) : List XmlNode → Option XmlNode
  | [] => none
  | XmlNode.elem n cs :: rest =>
      if n = name then some (XmlNode.elem n cs) else descendScan name rest
  | XmlNode.text _ :: rest => descendScan name rest

/-- `traverse_xml_tree` (src/main.rs lines 77-108): walk the path segment by
segment from the root; on the last segment return the inner text of the
first name-matching child; on earlier segments descend into the first
name-matching element child, failing if none matches; an empty path falls
through the loop and returns `None` (line 107). -/
def traverse_xml_tree : XmlNode → List String → Option String
  | _, [] => none
  | root, [name] => lastScan name root.children
  | root, name :: rest =>
      match descendScan name root.children with
      | some next => traverse_xml_tree next rest
      | none => none

/-- The Rust iterator `position(|c| c == &0)` over a `u16` slice: index of
the first zero code unit. -/
def position0 : List Nat → Option Nat
  | [] => none
  | c :: cs => if c = 0 then some 0 else (position0 cs).map (· + 1)

/-- `parse_utf16_slice` (src/main.rs lines 66-69): locate the first null
code unit (failing when there is none) and return the code units strictly
before it. -/
def parse_utf16_slice (s : List Nat) : Option (List Nat) :=
  match position0 s with
  | none => none
  | some i => some (s.take i)

/-! Spec-side formulations of the tree query, written from the spec's words,
to be compared with `traverse_xml_tree`. -/

mutual
/-- Spec-side: does some chain of children matching the path in order exist
from this node? The root itself realizes the empty path. -/
def chainExists : XmlNode → List String → Bool
  | _, [] => true
  | XmlNode.text _, _ :: _ => false
  | XmlNode.elem _ cs, name :: rest => chainExistsIn cs name rest

/-- Spec-side: does some child in the list start a chain matching
`name :: rest`? -/
def chainExistsIn : List XmlNode → String → List String → Bool
  | [], _, _ => false
  | c :: cs, name, rest =>
      (c.nodeName == name && chainExists c rest) || chainExistsIn cs name rest
end

/-- Spec-side: first child (of any kind) whose node name matches. -/
def specFirstNamed (name : String) (cs : List XmlNode) : Option XmlNode :=
  cs.find? (fun c => c.nodeName == name)

/-- Spec-side: first element child whose node name matches. -/
def specFirstElemNamed (name : String) (cs : List XmlNode) : Option XmlNode :=
  cs.find? (fun c => c.isElem && c.nodeName == name)

/-- Spec-side greedy descent: the node reached by following, at each
non-terminal path segment, the first element child whose name matches, and
at the terminal segment the first child of any kind whose name matches; an
empty path reaches no node. -/
def specGreedy : XmlNode → List String → Option XmlNode
  | _, [] => none
  | t, [name] => specFirstNamed name t.children
  | t, name :: rest =>
      match specFirstElemNamed name t.children with
      | some c => specGreedy c rest
      | none => none

/-! The `main` pipeline, modelled over an environment describing the answers
of the OS collaborators. -/

/-- A profile record of the `WLAN_PROFILE_INFO_LIST`: the fixed-size
wide-character name buffer, as a list of `u16` code units. -/
structure ProfileInfo where
  strProfileName : List Nat
deriving Repr, DecidableEq

/-- An interface record of the `WLAN_INTERFACE_INFO_LIST`: the interface
GUID (abstracted to a number) and the fixed-size wide-character description
buffer. -/
structure InterfaceInfo where
  interfaceGuid : Nat
  strInterfaceDescription : List Nat
deriving Repr, DecidableEq

/-- The answers of the OS collaborators for one run:
`openOk` for `WlanOpenHandle`, `interfaces` for `WlanEnumInterfaces`
(`none` = failure), `profileList` for `WlanGetProfileList` keyed by the
interface GUID, `profileXmlRaw` for `WlanGetProfile` keyed by GUID and
decoded profile name (`none` = the API call fails, `some none` = the
returned buffer is not valid UTF-16 so `to_string` fails, `some (some s)` =
success), and `parseXml` for `XmlDocument::LoadXml` plus `DocumentElement`
(`none` = failure, `some root` = the document element). -/
structure Env where
  openOk : Bool
  interfaces : Option (List InterfaceInfo)
  profileList : Nat → Option (List ProfileInfo)
  profileXmlRaw : Nat → List Nat → Option (Option String)
  parseXml : String → Option XmlNode

/-- One observable event of a run: a printed result line, a diagnostic
message, or a native resource-release call. Result lines carry exactly the
data the corresponding `println!` interpolates. -/
inductive Event where
  | errInterfaces
  | errInterfaceDesc
  | errProfiles
  | errProfileName
  | errProfileXml
  | errLoadXml
  | errAuthType
  | outOpen (name : List Nat)
  | outKey (name : List Nat) (auth : String) (key : String)
  | outNotSupported (name : List Nat) (auth : String)
  | freeDocument
  | freeProfileList
  | freeInterfaceList
  | closeHandle
deriving Repr, DecidableEq

/-- The body of the inner profile loop (src/main.rs lines 188-249), fused
with `get_profile_xml` (lines 110-142): decode the profile name, fetch the
raw XML (the native buffer, once allocated, is freed exactly once inside
`get_profile_xml`), load the document and take its root, query the
authentication type, then dispatch on it. Every failure prints a diagnostic
and moves to the next profile. -/
def processProfile (env : Env) (guid : Nat) (profile : ProfileInfo) : List Event :=
  match parse_utf16_slice profile.strProfileName with
  | none => [Event.errProfileName]
  | some name =>
    match env.profileXmlRaw guid name with
    | none => [Event.errProfileXml]
    | some none => [Event.freeDocument, Event.errProfileXml]
    | some (some raw) =>
      Event.freeDocument ::
      match env.parseXml raw with
      | none => [Event.errLoadXml]
      | some root =>
        match traverse_xml_tree root ["MSM", "security", "authEncryption", "authentication"] with
        | none => [Event.errAuthType]
        | some auth =>
          if auth = "open" then [Event.outOpen name]
          else if auth = "WPA2" ∨ auth = "WPA2PSK" then
            match traverse_xml_tree root ["MSM", "security", "sharedKey", "keyMaterial"] with
            | some password => [Event.outKey name auth password]
            | none => []
          else [Event.outNotSupported name auth]

/-- The body of the outer interface loop (src/main.rs lines 164-250): decode
the interface description, grab the profile list for the interface GUID, and
walk it. The source contains no `WlanFreeMemory` call for the profile list
pointer, so no release event is ever produced here. -/
def processInterface (env : Env) (ii : InterfaceInfo) : List Event :=
  match parse_utf16_slice ii.strInterfaceDescription with
  | none => [Event.errInterfaceDesc]
  | some _ =>
    match env.profileList ii.interfaceGuid with
    | none => [Event.errProfiles]
    | some profiles => (profiles.map (processProfile env ii.interfaceGuid)).flatten

/-- `main` (src/main.rs lines 145-255): open the handle (`expect` panics
with status 101 on failure), enumerate the interfaces (on failure print,
close the handle and exit 1), walk the interfaces, then free the interface
list and close the handle. Returns the process exit status and the event
trace. -/
def mainRun (env : Env) : Nat × List Event :=
  if env.openOk then
    match env.interfaces with
    | none => (1, [Event.errInterfaces, Event.closeHandle])
    | some ifaces =>
        (0, (ifaces.map (processInterface env)).flatten
              ++ [Event.freeInterfaceList, Event.closeHandle])
  else (101, [])

/-- Number of events of the trace satisfying a discriminator. -/
def countIf (p : Event → Bool) : List Event → Nat
  | [] => 0
  | e :: es => (if p e then 1 else 0) + countIf p es

/-- Discriminator for the `WlanCloseHandle` event. -/
def isCloseHandle : Event → Bool
  | Event.closeHandle => true
  | _ => false

/-- Discriminator for the `WlanFreeMemory` call on the interface list. -/
def isFreeInterfaceList : Event → Bool
  | Event.freeInterfaceList => true
  | _ => false

/-- Discriminator for a `WlanFreeMemory` call on a profile list. -/
def isFreeProfileList : Event → Bool
  | Event.freeProfileList => true
  | _ => false

/-- Discriminator for the printed result lines: the events that emit a
profile to standard output. -/
def isEmission : Event → Bool
  | Event.outOpen _ => true
  | Event.outKey _ _ _ => true
  | Event.outNotSupported _ _ => true
  | _ => false

/-! Concrete documents used in counterexamples and witnesses. -/

/-- A document whose root has two children named `a`: the first has no `b`
child, the second has one holding text. -/
def exDup : XmlNode :=
  XmlNode.elem "r"
    [XmlNode.elem "a" [],
     XmlNode.elem "a" [XmlNode.elem "b" [XmlNode.text "x"]]]

/-- A document where the node at path `[a]` holds its text only inside
nested children. -/
def exNested : XmlNode :=
  XmlNode.elem "r"
    [XmlNode.elem "a" [XmlNode.elem "b" [XmlNode.text "hel"],
                       XmlNode.elem "c" [XmlNode.text "lo"]]]

/-- The `a` child of `exNested`. -/
def exNestedA : XmlNode :=
  XmlNode.elem "a" [XmlNode.elem "b" [XmlNode.text "hel"],
                    XmlNode.elem "c" [XmlNode.text "lo"]]

/-! Lemmas relating the two scans of `traverse_xml_tree` to the spec-side
first-match searches. -/

theorem lastScan_eq (name : String) (cs : List XmlNode) :
    lastScan name cs = (specFirstNamed name cs).map XmlNode.innerText := by
  induction cs with
  | nil => rfl
  | cons c cs ih =>
    by_cases h : c.nodeName = name
    · simp [lastScan, specFirstNamed, List.find?, h]
    · have hb : (c.nodeName == name) = false := beq_eq_false_iff_ne.mpr h
      simp only [lastScan, specFirstNamed, List.find?, if_neg h, hb]
      simpa [specFirstNamed] using ih

theorem descendScan_eq (name : String) (cs : List XmlNode) :
    descendScan name cs = specFirstElemNamed name cs := by
  induction cs with
  | nil => rfl
  | cons c cs ih =>
    cases c with
    | elem n ch =>
      by_cases h : n = name
      · simp [descendScan, specFirstElemNamed, List.find?, XmlNode.isElem,
              XmlNode.nodeName, h]
      · have hb : (n == name) = false := beq_eq_false_iff_ne.mpr h
        simp only [descendScan, specFirstElemNamed, List.find?,
                   XmlNode.isElem, XmlNode.nodeName, if_neg h,
                   Bool.true_and, hb]
        simpa [specFirstElemNamed] using ih
    | text s =>
      simp only [descendScan, specFirstElemNamed, List.find?,
                 XmlNode.isElem, XmlNode.nodeName, Bool.false_and]
      simpa [specFirstElemNamed] using ih

/-- The source traversal equals the spec-side greedy descent followed by
taking the inner text of the reached node. -/
theorem traverse_eq_specGreedy (p : List String) (t : XmlNode) :
    traverse_xml_tree t p = (specGreedy t p).map XmlNode.innerText := by
  induction p generalizing t with
  | nil => rfl
  | cons name rest ih =>
    cases rest with
    | nil => simpa [traverse_xml_tree, specGreedy] using lastScan_eq name t.children
    | cons b l =>
      simp only [traverse_xml_tree, specGreedy, descendScan_eq]
      cases h : specFirstElemNamed name t.children with
      | none => rfl
      | some c => exact ih c

/-- C3, counterexample: in `exDup` a child-chain matching `[a, b]` exists
from the root (through the second `a` child), yet the query returns
"not found": the traversal descends only into the first name-matching
child and never backtracks. -/
theorem C3_counterexample :
    chainExists exDup ["a", "b"] = true ∧
      traverse_xml_tree exDup ["a", "b"] = none := by
  exact ⟨rfl, rfl⟩

/-- C3, amended: the tree query returns "not found" if and only if the
greedy first-match descent reaches no node — the path is empty, or at some
non-terminal segment no element child of the current node matches the
segment, or at the terminal segment no child matches; otherwise it returns
exactly the inner text of the node reached by that descent, including the
empty string when that node has no text. (The original "iff no matching
chain exists" fails because only the first name-matching child is followed
at each level, with no backtracking.) -/
theorem C3_traverse_characterization (t : XmlNode) (p : List String) :
    traverse_xml_tree t p = (specGreedy t p).map XmlNode.innerText := by
  exact traverse_eq_specGreedy p t

/-- C10: when the greedy descent reaches the terminal node of the path, the
query returns that node's inner text — the concatenated text of the entire
subtree rooted there — not just its direct text content. -/
theorem C10_terminal_inner_text (t : XmlNode) (p : List String) (n : XmlNode)
    (h : specGreedy t p = some n) :
    traverse_xml_tree t p = some (XmlNode.innerText n) := by
  rw [traverse_eq_specGreedy, h]
  rfl

/-- C10, witness: in `exNested` the node reached at path `[a]` has no direct
text, yet the query returns the concatenated text `"hello"` of its nested
children. -/
theorem C10_witness :
    traverse_xml_tree exNested ["a"] = some "hello" := by
  have h := C10_terminal_inner_text exNested ["a"] exNestedA rfl
  rw [h]
  rfl

/-! Lemmas about `position0` and the decode claims. -/

theorem position0_eq_none_iff (s : List Nat) :
    position0 s = none ↔ 0 ∉ s := by
  induction s with
  | nil => simp [position0]
  | cons c cs ih =>
    by_cases h : c = 0
    · simp [position0, h]
    · cases hp : position0 cs with
      | none =>
        have hm : 0 ∉ cs := ih.mp hp
        simp [position0, h, hp, Ne.symm h, hm]
      | some i =>
        have hm : 0 ∈ cs := by
          by_contra hn
          exact Option.noConfusion (hp ▸ ih.mpr hn)
        simp only [position0, if_neg h, hp, Option.map_some]
        simp [List.mem_cons, hm]

theorem position0_append (pre suf : List Nat) (h : 0 ∉ pre) :
    position0 (pre ++ 0 :: suf) = some pre.length := by
  induction pre with
  | nil => simp [position0]
  | cons a t ih =>
    have ha : a ≠ 0 := fun e => h (by simp [e])
    have ht : 0 ∉ t := fun m => h (List.mem_cons_of_mem _ m)
    simp [position0, ha, ih ht]

/-- C4, counterexample: a buffer whose first code unit is the null
terminator decodes successfully to the empty text — the source treats empty
content before the first null as a success, not a decode failure, so the
item is not skipped. -/
theorem C4_counterexample :
    parse_utf16_slice [0, 65] = some [] := by
  rfl

/-- C4, amended: decoding a fixed-size wide-character buffer fails (and the
item is skipped at the call sites) exactly when the buffer contains no null
terminator; when a null terminator exists, decoding succeeds, even when the
content before the first null is empty. -/
theorem C4_decode_fails_iff_no_null (s : List Nat) :
    parse_utf16_slice s = none ↔ 0 ∉ s := by
  rw [← position0_eq_none_iff]
  cases hp : position0 s <;> simp [parse_utf16_slice, hp]

/-- C9: for a buffer holding at least one null unit, decoding returns
exactly the code units strictly before the first null; the result does not
depend on anything placed after that null. -/
theorem C9_decode_prefix (pre suf : List Nat) (h : 0 ∉ pre) :
    parse_utf16_slice (pre ++ 0 :: suf) = some pre := by
  rw [parse_utf16_slice, position0_append pre suf h]
  simp

/-- C9, witness: the buffer `[72, 105, 0, 7, 0, 9]` decodes to `[72, 105]`,
ignoring everything after the first null. -/
theorem C9_witness :
    0 ∉ [72, 105] ∧ parse_utf16_slice ([72, 105] ++ 0 :: [7, 0, 9]) = some [72, 105] :=
  ⟨by decide, C9_decode_prefix [72, 105] [7, 0, 9] (by decide)⟩

/-! Counting lemmas over event traces. -/

theorem countIf_append (p : Event → Bool) (l1 l2 : List Event) :
    countIf p (l1 ++ l2) = countIf p l1 + countIf p l2 := by
  induction l1 with
  | nil => simp [countIf]
  | cons e es ih => simp [countIf, ih]; omega

theorem countIf_flatten_map {α : Type} (p : Event → Bool) (f : α → List Event)
    (l : List α) (h : ∀ x ∈ l, countIf p (f x) = 0) :
    countIf p ((l.map f).flatten) = 0 := by
  induction l with
  | nil => rfl
  | cons x xs ih =>
    simp only [List.map_cons, List.flatten_cons, countIf_append]
    rw [h x (by simp), ih (fun y hy => h y (by simp [hy]))]

/-- Any discriminator that rejects every event constructor the profile loop
body can produce counts zero occurrences in its trace. -/
theorem countIf_processProfile (env : Env) (g : Nat) (prof : ProfileInfo)
    (p : Event → Bool)
    (ha : p Event.errProfileName = false)
    (hb : p Event.errProfileXml = false)
    (hc : p Event.freeDocument = false)
    (hd : p Event.errLoadXml = false)
    (he : p Event.errAuthType = false)
    (hf : ∀ n, p (Event.outOpen n) = false)
    (hg : ∀ n a k, p (Event.outKey n a k) = false)
    (hh : ∀ n a, p (Event.outNotSupported n a) = false) :
    countIf p (processProfile env g prof) = 0 := by
  unfold processProfile
  repeat' split
  all_goals simp [countIf, ha, hb, hc, hd, he, hf, hg, hh]

/-- Any discriminator that also rejects the interface loop's diagnostics
counts zero occurrences in an interface's trace. -/
theorem countIf_processInterface (env : Env) (ii : InterfaceInfo)
    (p : Event → Bool)
    (h0 : p Event.errInterfaceDesc = false)
    (h1 : p Event.errProfiles = false)
    (hprof : ∀ g prof, countIf p (processProfile env g prof) = 0) :
    countIf p (processInterface env ii) = 0 := by
  cases hd : parse_utf16_slice ii.strInterfaceDescription with
  | none => simp [processInterface, hd, countIf, h0]
  | some d =>
    cases hp : env.profileList ii.interfaceGuid with
    | none => simp [processInterface, hd, hp, countIf, h1]
    | some profiles =>
      simp only [processInterface, hd, hp]
      exact countIf_flatten_map p _ _
        (fun prof _ => hprof ii.interfaceGuid prof)

/-- C2: no run ever performs a `WlanFreeMemory` call on a profile list —
the source contains no release call for the profile-list pointer, so the
list acquired for an interface is leaked rather than released once. -/
theorem C2_profile_list_never_released (env : Env) :
    countIf isFreeProfileList (mainRun env).2 = 0 := by
  cases ho : env.openOk
  · simp [mainRun, ho, countIf]
  · cases hi : env.interfaces with
    | none => simp [mainRun, ho, hi, countIf, isFreeProfileList]
    | some ifaces =>
      simp only [mainRun, ho, if_true, hi]
      rw [countIf_append]
      have hbody :
          countIf isFreeProfileList ((ifaces.map (processInterface env)).flatten) = 0 :=
        countIf_flatten_map _ _ _ (fun ii _ =>
          countIf_processInterface env ii _ rfl rfl (fun g prof =>
            countIf_processProfile env g prof _ rfl rfl rfl rfl rfl
              (fun _ => rfl) (fun _ _ _ => rfl) (fun _ _ => rfl)))
      rw [hbody]
      rfl

/-- C5: the process exit status is non-zero exactly when the session handle
could not be opened or the interface list could not be enumerated; every
other run exits with status zero, whatever happened to individual
interfaces and profiles. -/
theorem C5_exit_status (env : Env) :
    (mainRun env).1 ≠ 0 ↔ (env.openOk = false ∨ env.interfaces = none) := by
  cases ho : env.openOk
  · simp [mainRun, ho]
  · cases hi : env.interfaces with
    | none => simp [mainRun, ho, hi]
    | some ifaces => simp [mainRun, ho, hi]

/-- C6: on every code path, if the session handle was opened it is closed
exactly once, and if the interface list was acquired it is freed exactly
once — including the early-termination path where interface enumeration
fails. -/
theorem C6_handle_and_interface_list_released_once (env : Env)
    (ho : env.openOk = true) :
    countIf isCloseHandle (mainRun env).2 = 1 ∧
      (env.interfaces ≠ none →
        countIf isFreeInterfaceList (mainRun env).2 = 1) := by
  cases hi : env.interfaces with
  | none =>
    constructor
    · simp [mainRun, ho, hi, countIf, isCloseHandle]
    · intro h
      exact absurd rfl h
  | some ifaces =>
    have hclose :
        countIf isCloseHandle ((ifaces.map (processInterface env)).flatten) = 0 :=
      countIf_flatten_map _ _ _ (fun ii _ =>
        countIf_processInterface env ii _ rfl rfl (fun g prof =>
          countIf_processProfile env g prof _ rfl rfl rfl rfl rfl
            (fun _ => rfl) (fun _ _ _ => rfl) (fun _ _ => rfl)))
    have hfree :
        countIf isFreeInterfaceList ((ifaces.map (processInterface env)).flatten) = 0 :=
      countIf_flatten_map _ _ _ (fun ii _ =>
        countIf_processInterface env ii _ rfl rfl (fun g prof =>
          countIf_processProfile env g prof _ rfl rfl rfl rfl rfl
            (fun _ => rfl) (fun _ _ _ => rfl) (fun _ _ => rfl)))
    constructor
    · simp only [mainRun, ho, if_true, hi]
      rw [countIf_append, hclose]
      rfl
    · intro _
      simp only [mainRun, ho, if_true, hi]
      rw [countIf_append, hfree]
      rfl

/-! Concrete environments for counterexamples and witnesses. -/

/-- A profile whose name buffer decodes to the single code unit 66. -/
def profB : ProfileInfo := ⟨[66, 0]⟩

/-- An interface with GUID 1 and a decodable description buffer. -/
def ifaceA : InterfaceInfo := ⟨1, [65, 0]⟩

/-- An interface with GUID 2 and a decodable description buffer. -/
def ifaceB : InterfaceInfo := ⟨2, [66, 0]⟩

/-- A profile document with the given authentication type and no
`sharedKey` branch. -/
def treeAuth (a : String) : XmlNode :=
  XmlNode.elem "WLANProfile"
    [XmlNode.elem "MSM"
      [XmlNode.elem "security"
        [XmlNode.elem "authEncryption"
          [XmlNode.elem "authentication" [XmlNode.text a]]]]]

/-- One interface, one WPA2 profile whose document has no
`sharedKey/keyMaterial` node. -/
def envNoKey : Env :=
  { openOk := true
    interfaces := some [ifaceA]
    profileList := fun _ => some [profB]
    profileXmlRaw := fun _ _ => some (some "doc")
    parseXml := fun _ => some (treeAuth "WPA2") }

/-- Same run with a WEP profile. -/
def envWep : Env :=
  { envNoKey with parseXml := fun _ => some (treeAuth "WEP") }

/-- Two interfaces: the profile list of the first (GUID 1) cannot be
acquired, the second has one open-network profile. -/
def envC7 : Env :=
  { openOk := true
    interfaces := some [ifaceA, ifaceB]
    profileList := fun g => if g = 1 then none else some [profB]
    profileXmlRaw := fun _ _ => some (some "doc")
    parseXml := fun _ => some (treeAuth "open") }

/-- C1, counterexample: for a WPA2 profile whose document has no
`sharedKey/keyMaterial` node, the run exits 0 but emits nothing at all for
the profile — no name, no authentication type, no "key unavailable" status:
the `if let` over the key query has no else branch. -/
theorem C1_counterexample :
    mainRun envNoKey =
        (0, [Event.freeDocument, Event.freeInterfaceList, Event.closeHandle]) ∧
      countIf isEmission (mainRun envNoKey).2 = 0 := by
  exact ⟨rfl, rfl⟩

/-- C1, amended: for a profile whose authentication type is WPA2 or WPA2PSK
and whose document has no node at `MSM/security/sharedKey/keyMaterial`, the
run does not abort and carries no key material, but the profile is not
emitted at all: its processing produces only the internal document-buffer
release and no output line of any kind. -/
theorem C1_missing_key_emits_nothing (env : Env) (g : Nat)
    (prof : ProfileInfo) (name : List Nat) (raw : String) (root : XmlNode)
    (auth : String)
    (h1 : parse_utf16_slice prof.strProfileName = some name)
    (h2 : env.profileXmlRaw g name = some (some raw))
    (h3 : env.parseXml raw = some root)
    (h4 : traverse_xml_tree root
            ["MSM", "security", "authEncryption", "authentication"] = some auth)
    (h5 : auth = "WPA2" ∨ auth = "WPA2PSK")
    (h6 : traverse_xml_tree root
            ["MSM", "security", "sharedKey", "keyMaterial"] = none) :
    processProfile env g prof = [Event.freeDocument] := by
  have hopen : ¬(auth = "open") := by
    rcases h5 with h5 | h5 <;> subst h5 <;> decide
  simp only [processProfile, h1, h2, h3, h4]
  rw [if_neg hopen, if_pos h5, h6]

/-- C1, witness: the amended property at the concrete environment
`envNoKey`. -/
theorem C1_witness : processProfile envNoKey 1 profB = [Event.freeDocument] :=
  C1_missing_key_emits_nothing envNoKey 1 profB [66] "doc" (treeAuth "WPA2")
    "WPA2" rfl rfl rfl rfl (Or.inl rfl) rfl

/-- C7: when the profile list of one interface cannot be acquired, the run
prints the warning for it and still processes every following interface
exactly as it would; the failure never aborts the scan. -/
theorem C7_profile_list_failure_is_interface_scoped (env : Env)
    (pre : List InterfaceInfo) (ii : InterfaceInfo)
    (post : List InterfaceInfo) (d : List Nat)
    (ho : env.openOk = true)
    (hi : env.interfaces = some (pre ++ ii :: post))
    (hd : parse_utf16_slice ii.strInterfaceDescription = some d)
    (hf : env.profileList ii.interfaceGuid = none) :
    (mainRun env).2 =
      (pre.map (processInterface env)).flatten
        ++ Event.errProfiles
          :: ((post.map (processInterface env)).flatten
            ++ [Event.freeInterfaceList, Event.closeHandle]) := by
  have hii : processInterface env ii = [Event.errProfiles] := by
    simp [processInterface, hd, hf]
  simp only [mainRun, ho, if_true, hi]
  simp [List.map_append, List.flatten_append, hii]

/-- C7, witness: in `envC7` the first interface's profile list fails, a
warning is emitted, and the second interface's open profile is still
reported. -/
theorem C7_witness :
    (mainRun envC7).2 =
      [Event.errProfiles, Event.freeDocument, Event.outOpen [66],
       Event.freeInterfaceList, Event.closeHandle] := by
  have h := C7_profile_list_failure_is_interface_scoped envC7 [] ifaceA
    [ifaceB] [65] rfl rfl rfl rfl
  rw [h]
  rfl

/-- C8: a profile whose authentication type is none of "open", "WPA2" and
"WPA2PSK" is emitted with its name and type and the "not supported" status,
carrying no key material, and the default arm produces a normal result so
processing continues with the next profile. -/
theorem C8_unknown_auth_not_supported (env : Env) (g : Nat)
    (prof : ProfileInfo) (name : List Nat) (raw : String) (root : XmlNode)
    (auth : String)
    (h1 : parse_utf16_slice prof.strProfileName = some name)
    (h2 : env.profileXmlRaw g name = some (some raw))
    (h3 : env.parseXml raw = some root)
    (h4 : traverse_xml_tree root
            ["MSM", "security", "authEncryption", "authentication"] = some auth)
    (h5 : auth ≠ "open") (h6 : auth ≠ "WPA2") (h7 : auth ≠ "WPA2PSK") :
    processProfile env g prof =
      [Event.freeDocument, Event.outNotSupported name auth] := by
  have hw : ¬(auth = "WPA2" ∨ auth = "WPA2PSK") := by
    rintro (h | h)
    · exact h6 h
    · exact h7 h
  simp only [processProfile, h1, h2, h3, h4]
  rw [if_neg h5, if_neg hw]

/-- C8, witness: a WEP profile is reported as not supported with no key. -/
theorem C8_witness :
    processProfile envWep 1 profB =
      [Event.freeDocument, Event.outNotSupported [66] "WEP"] :=
  C8_unknown_auth_not_supported envWep 1 profB [66] "doc" (treeAuth "WEP")
    "WEP" rfl rfl rfl rfl (by decide) (by decide) (by decide)

/-- C6, witness: the released-exactly-once property evaluated on the
concrete environment `envNoKey`. -/
theorem C6_witness :
    countIf isCloseHandle (mainRun envNoKey).2 = 1 ∧
      countIf isFreeInterfaceList (mainRun envNoKey).2 = 1 := by
  have h := C6_handle_and_interface_list_released_once envNoKey rfl
  exact ⟨h.1, h.2 (by decide)⟩

end WifiViz
